import Mathlib

/-
  Shallow embedding of `mio::detail::mmap` (src/include/mio/detail/mmap_impl.ipp),
  POSIX backend (the non-`_WIN32` branches of the source).

  Conventions of the embedding:
  * `size_type` is `int64_t`; offsets, lengths and file sizes are `Int`.
  * File handles are POSIX file descriptors (`Int`), with the invalid sentinel -1.
  * The OS is an oracle (`MapEnv`): the outcomes of `::open`, `::fstat` and
    `::mmap` are inputs, so theorems quantify over every possible OS behaviour.
    The `::mmap` oracle is a function of the arguments the code passes to it
    (length to map, protection flags, aligned offset), so what the code hands to
    the OS primitive is observable in the statements.
  * The `std::error_code&` out-parameter is modelled as a returned `ErrorCode`;
    `error.clear()` at entry corresponds to the fact that the returned value is
    built afresh by each call and never read from the caller's slot.
  * The byte content visible through a mapping is carried in the state as the
    list `bytes` (the bytes in `[data, data + length)`), taken from the file
    content oracle; this is what `begin()/end()` expose to `operator==`.
-/

namespace Mio

/-- POSIX file handles are plain file descriptors. -/
abbrev Handle := Int

/-- Modelled from the spec: the explicit invalid-handle sentinel
(`INVALID_HANDLE_VALUE`, declared in the missing header `mmap_impl.hpp`);
on the POSIX backend it is `-1`, the failure return of `::open`. -/
def INVALID_HANDLE_VALUE : Handle := -1

/-- The two access modes of `mio::detail::mmap::access_mode`. -/
inductive AccessMode
  | read_only
  | read_write
deriving DecidableEq

/-- POSIX protection flag `PROT_READ` (value 1 on Linux). -/
def PROT_READ : Nat := 1

/-- POSIX protection flag `PROT_WRITE` (value 2 on Linux). -/
def PROT_WRITE : Nat := 2

/-- The protection flags the POSIX backend passes to `::mmap`
(mmap_impl.ipp line 262):
`mode == mmap::access_mode::read_only ? PROT_READ : PROT_WRITE`. -/
def prot_flags (mode : AccessMode) : Nat :=
  if mode = AccessMode.read_only then PROT_READ else PROT_WRITE

/-- A `std::error_code` as the implementation uses it: cleared, one of the two
generic conditions it raises itself, or a platform `errno` from `last_error()`
(system category). -/
inductive ErrorCode
  | ok
  | invalid_argument
  | bad_file_descriptor
  | system (v : Nat)
deriving DecidableEq

/-- Truthiness of a `std::error_code` (`operator bool`): `value() != 0`.
The two `std::errc` conditions have nonzero values. -/
def ErrorCode.isSet : ErrorCode → Bool
  | .ok => false
  | .invalid_argument => true
  | .bad_file_descriptor => true
  | .system v => v != 0

/-- The fields of `mio::detail::mmap` on the POSIX backend
(`file_mapping_handle_` exists only on Windows).  `bytes` is the ghost content
of `[data, data + length)` used by `begin()/end()` consumers. -/
structure MmapState where
  data_ : Option Int
  length_ : Int
  mapped_length_ : Int
  file_handle_ : Handle
  is_handle_internal_ : Bool
  bytes : List Nat
deriving DecidableEq

/-- Modelled from the spec: default construction (declared in the missing
header `mmap_impl.hpp`) yields the empty state: null data, zero lengths,
invalid-handle sentinel, handle not internal. -/
def emptyState : MmapState :=
  { data_ := none
    length_ := 0
    mapped_length_ := 0
    file_handle_ := INVALID_HANDLE_VALUE
    is_handle_internal_ := false
    bytes := [] }

/-- `mmap::is_open` (mmap_impl.ipp lines 350-353):
`file_handle_ != INVALID_HANDLE_VALUE`. -/
def is_open (st : MmapState) : Bool :=
  st.file_handle_ != INVALID_HANDLE_VALUE

/-- `mmap::is_mapped` (mmap_impl.ipp lines 355-362); on the POSIX backend it
is `is_open()`. -/
def is_mapped (st : MmapState) : Bool :=
  is_open st

/-- Modelled from the spec: the `size()` accessor (declared in the missing
header) returns the logical, user-visible length of the mapping. -/
def size (st : MmapState) : Int :=
  st.length_

/-- The OS oracle for one mapping operation.  `openRet` is what `::open`
returns (-1 on failure, with `openErrno` as `errno`); `statRet` is the outcome
of `::fstat` (file size or `errno`); `mmapCall ltm prot aoff` is the outcome of
`::mmap` when called with length-to-map `ltm`, protection `prot` and aligned
offset `aoff` (start address, or `errno` for `MAP_FAILED`); `fileByte i` is the
on-disk byte at file offset `i`. -/
structure MapEnv where
  pageSize : Nat
  openRet : Handle
  openErrno : Nat
  statRet : Except Nat Int
  mmapCall : Int → Nat → Int → Except Nat Nat
  fileByte : Int → Nat

/-- `make_page_aligned` (mmap_impl.ipp lines 47-52): round `offset` down to the
nearest page boundary using integer division on `size_t`:
`offset / page_size_ * page_size_`. -/
def make_page_aligned (page : Nat) (offset : Int) : Int :=
  ((offset.toNat / page * page : Nat) : Int)

/-- The bytes the mapping exposes at `[data, data + length)`: byte `i` of the
view is the file's byte at offset `offset + i`. -/
def contentSlice (env : MapEnv) (offset length : Int) : List Nat :=
  (List.range length.toNat).map (fun i => env.fileByte (offset + (i : Int)))

/-- The private `mmap::map(offset, length, mode, error)` overload
(mmap_impl.ipp lines 227-275, POSIX branch): compute the page-aligned offset
and the length to map, call `::mmap` with them and the access-mode-derived
protection flags, and on success set `data_`, `length_` and `mapped_length_`.
On failure the error is `last_error()` and no field is written. -/
def map_priv (env : MapEnv) (st : MmapState) (offset length : Int)
    (mode : AccessMode) : MmapState × ErrorCode :=
  let aligned_offset := make_page_aligned env.pageSize offset
  let length_to_map := offset - aligned_offset + length
  match env.mmapCall length_to_map (prot_flags mode) aligned_offset with
  | .error e => (st, .system e)
  | .ok mapping_start =>
      ({ st with
          data_ := some ((mapping_start : Int) + offset - aligned_offset)
          length_ := length
          mapped_length_ := length_to_map
          bytes := contentSlice env offset length }, .ok)

/-- `query_file_size` (mmap_impl.ipp lines 95-115, POSIX branch): clear the
error; on `::fstat` failure set `error = last_error()` and return 0, otherwise
return `st_size`. -/
def query_file_size (env : MapEnv) : Int × ErrorCode :=
  match env.statRet with
  | .error e => (0, .system e)
  | .ok sz => (sz, .ok)

/-- The public handle-based `mmap::map(handle, offset, length, mode, error)`
(mmap_impl.ipp lines 199-225): clear the error; reject the invalid-handle
sentinel with `bad_file_descriptor`; query the file size and return on a set
error; resolve a non-positive `length` to the file size, or reject
`offset + length > file_size` with `invalid_argument`; then store the handle,
mark it as not internal, and delegate to the private overload. -/
def map_handle (env : MapEnv) (st : MmapState) (handle : Handle)
    (offset length : Int) (mode : AccessMode) : MmapState × ErrorCode :=
  if handle = INVALID_HANDLE_VALUE then
    (st, .bad_file_descriptor)
  else
    let q := query_file_size env
    if q.2.isSet then (st, q.2)
    else
      let file_size := q.1
      let doMap := fun (l : Int) =>
        map_priv env
          { st with file_handle_ := handle, is_handle_internal_ := false }
          offset l mode
      if length ≤ 0 then doMap file_size
      else if offset + length > file_size then (st, .invalid_argument)
      else doMap length

/-- `open_file` (mmap_impl.ipp lines 65-93, POSIX branch): clear the error;
an empty path yields `invalid_argument` and the invalid handle; otherwise call
`::open` and set `error = last_error()` when it returns the invalid handle. -/
def open_file (env : MapEnv) (pathEmpty : Bool) : Handle × ErrorCode :=
  if pathEmpty then
    (INVALID_HANDLE_VALUE, .invalid_argument)
  else if env.openRet = INVALID_HANDLE_VALUE then
    (env.openRet, .system env.openErrno)
  else
    (env.openRet, .ok)

/-- The public path-based `mmap::map(path, offset, length, mode, error)`
(mmap_impl.ipp lines 179-197): clear the error; reject an empty path with
`invalid_argument`; if not already open, open the file, return on a set error,
delegate to the handle-based overload, and afterwards (regardless of its
outcome) set `is_handle_internal_ = true`.  The third component lists the OS
handle actually opened by the internal `::open` call (empty when no handle was
opened), for resource accounting. -/
def map_path (env : MapEnv) (st : MmapState) (pathEmpty : Bool)
    (offset length : Int) (mode : AccessMode) :
    MmapState × ErrorCode × List Handle :=
  if pathEmpty then
    (st, .invalid_argument, [])
  else if is_open st then
    (st, .ok, [])
  else
    let ho := open_file env pathEmpty
    let ev := if ho.1 = INVALID_HANDLE_VALUE then [] else [ho.1]
    if ho.2.isSet then (st, ho.2, ev)
    else
      let r := map_handle env st ho.1 offset length mode
      ({ r.1 with is_handle_internal_ := true }, r.2, ev)

/-- `mmap::unmap` (mmap_impl.ipp lines 307-341, POSIX branch): return at once
if not open; otherwise `::munmap` the view when `data_` is non-null and
`::close` the file handle when it is internal — both return values are
discarded (`munmapRet`, `closeRet` are those ignored results) — then reset
`data_`, the lengths and `file_handle_` to their default values
(`is_handle_internal_` is not reset by the source).  The second component
lists the handles closed by this call, for resource accounting. -/
def unmap (munmapRet closeRet : Int) (st : MmapState) :
    MmapState × List Handle :=
  if is_open st = false then (st, [])
  else
    let closedHs := if st.is_handle_internal_ then [st.file_handle_] else []
    ({ st with
        data_ := none
        length_ := 0
        mapped_length_ := 0
        file_handle_ := INVALID_HANDLE_VALUE
        bytes := [] }, closedHs)

/-- The move constructor's effect on the moved-from object
(mmap_impl.ipp lines 124-140): `data_`, the lengths and `file_handle_` are
reset; `is_handle_internal_` is left as it was. -/
def moved_from_state (st : MmapState) : MmapState :=
  { st with
      data_ := none
      length_ := 0
      mapped_length_ := 0
      file_handle_ := INVALID_HANDLE_VALUE
      bytes := [] }

/-- `operator==` (mmap_impl.ipp lines 380-387): if both regions are mapped,
compare `size()` and then `std::equal(a.begin(), a.end(), b.begin())`, which
compares `a`'s whole byte range against equally many bytes of `b`; otherwise
the regions are equal iff neither is mapped. -/
def mmap_beq (a b : MmapState) : Bool :=
  if is_mapped a && is_mapped b then
    decide (size a = size b) && decide (a.bytes = b.bytes.take a.bytes.length)
  else
    !(is_mapped a) && !(is_mapped b)

/-- `operator!=` (mmap_impl.ipp lines 389-392): `!(a == b)`. -/
def mmap_bne (a b : MmapState) : Bool :=
  !(mmap_beq a b)

/-! ### Resource accounting for handle ownership

A system of live `mmap` regions together with the multiset of file handles the
library opened internally (one entry per successful internal `::open`) and the
multiset of handles it closed (one entry per `::close`). -/

/-- The live regions of a process together with the open/close events the
library performed so far. -/
structure Sys where
  regions : Multiset MmapState
  opened : Multiset Handle
  closed : Multiset Handle
deriving DecidableEq

/-- The close obligation a single region carries: its file handle, when the
region is open and owns the handle (`is_handle_internal_`). -/
def owedOf (st : MmapState) : Multiset Handle :=
  if is_open st && st.is_handle_internal_ then {st.file_handle_} else 0

/-- All close obligations of the live regions. -/
def owed (sys : Sys) : Multiset Handle :=
  (sys.regions.map owedOf).sum

/-- Traces of operations on a system of regions, where each step runs one of
the source's operations on one region.  Two side conditions carve out the
well-behaved traces: a path-based `map` is only run when, if it opened a
handle, the handle also ended up stored in the region (`hgood`), and a
handle-based `map` is only run on a region that is not already open (`hopen`)
— these rule out exactly the leak scenarios the corrected claim C2 excludes.
`destroyStep` is the destructor: `unmap` followed by removal of the region. -/
inductive GoodTrace : Sys → Sys → Prop
  | done (s : Sys) : GoodTrace s s
  | newRegion (R : Multiset MmapState) (O C : Multiset Handle) (s' : Sys)
      (h : GoodTrace ⟨emptyState ::ₘ R, O, C⟩ s') :
      GoodTrace ⟨R, O, C⟩ s'
  | mapPathStep (env : MapEnv) (pe : Bool) (offset length : Int)
      (mode : AccessMode) (st : MmapState) (R : Multiset MmapState)
      (O C : Multiset Handle) (s' : Sys)
      (hgood : (map_path env st pe offset length mode).2.2 = [] ∨
        is_open (map_path env st pe offset length mode).1 = true)
      (h : GoodTrace ⟨(map_path env st pe offset length mode).1 ::ₘ R,
        O + Multiset.ofList (map_path env st pe offset length mode).2.2, C⟩ s') :
      GoodTrace ⟨st ::ₘ R, O, C⟩ s'
  | mapHandleStep (env : MapEnv) (handle : Handle) (offset length : Int)
      (mode : AccessMode) (st : MmapState) (R : Multiset MmapState)
      (O C : Multiset Handle) (s' : Sys)
      (hopen : is_open st = false)
      (h : GoodTrace ⟨(map_handle env st handle offset length mode).1 ::ₘ R,
        O, C⟩ s') :
      GoodTrace ⟨st ::ₘ R, O, C⟩ s'
  | unmapStep (st : MmapState) (R : Multiset MmapState)
      (O C : Multiset Handle) (s' : Sys)
      (h : GoodTrace ⟨(unmap 0 0 st).1 ::ₘ R, O,
        C + Multiset.ofList (unmap 0 0 st).2⟩ s') :
      GoodTrace ⟨st ::ₘ R, O, C⟩ s'
  | moveStep (st : MmapState) (R : Multiset MmapState)
      (O C : Multiset Handle) (s' : Sys)
      (h : GoodTrace ⟨st ::ₘ moved_from_state st ::ₘ R, O, C⟩ s') :
      GoodTrace ⟨st ::ₘ R, O, C⟩ s'
  | destroyStep (st : MmapState) (R : Multiset MmapState)
      (O C : Multiset Handle) (s' : Sys)
      (h : GoodTrace ⟨R, O, C + Multiset.ofList (unmap 0 0 st).2⟩ s') :
      GoodTrace ⟨st ::ₘ R, O, C⟩ s'

/-! ### Concrete oracles and states used by witnesses and counterexamples -/

/-- An OS oracle where everything succeeds: `::open` returns descriptor 3,
the file is 100 bytes, `::mmap` returns address 65536. -/
def envAllOk : MapEnv :=
  { pageSize := 4096
    openRet := 3
    openErrno := 0
    statRet := .ok 100
    mmapCall := fun _ _ _ => .ok 65536
    fileByte := fun _ => 7 }

/-- An OS oracle where `::mmap` fails with `errno = 12` (ENOMEM) while
`::open` and `::fstat` succeed. -/
def envMmapFail : MapEnv :=
  { pageSize := 4096
    openRet := 3
    openErrno := 0
    statRet := .ok 100
    mmapCall := fun _ _ _ => .error 12
    fileByte := fun _ => 0 }

/-- An OS oracle where `::open` fails with `errno = 2` (ENOENT). -/
def envOpenFail : MapEnv :=
  { pageSize := 4096
    openRet := INVALID_HANDLE_VALUE
    openErrno := 2
    statRet := .ok 100
    mmapCall := fun _ _ _ => .ok 65536
    fileByte := fun _ => 0 }

/-- An all-success OS oracle with a large file, for the alignment witness. -/
def envBigFile : MapEnv :=
  { pageSize := 4096
    openRet := 3
    openErrno := 0
    statRet := .ok 1000000000
    mmapCall := fun _ _ _ => .ok 1048576
    fileByte := fun _ => 0 }

/-- A concrete open region owning descriptor 3, mapping 10 bytes at an
unaligned offset (alignment slack 10). -/
def stOpenEx : MmapState :=
  { data_ := some 4106
    length_ := 10
    mapped_length_ := 20
    file_handle_ := 3
    is_handle_internal_ := true
    bytes := [0, 1, 2, 3, 4, 5, 6, 7, 8, 9] }

/-- A second open region with the same size and byte content as `stOpenEx`
but a different caller-supplied handle and mapping address. -/
def stOpenEx2 : MmapState :=
  { data_ := some 8192
    length_ := 10
    mapped_length_ := 10
    file_handle_ := 7
    is_handle_internal_ := false
    bytes := [0, 1, 2, 3, 4, 5, 6, 7, 8, 9] }

/-! ## Theorems -/

/-- Claim C7 (code bug): the claim says read_write mode yields read/write
(both readable and writable) protection, but the POSIX branch passes
`PROT_WRITE` alone to `::mmap` — the `PROT_READ` bit is absent, so the
protection is not "both readable and writable" as the access-mode name, the
spec and the code's own byte-reading `operator==` require. -/
theorem prot_flags_write_only_C7 :
    prot_flags AccessMode.read_write = PROT_WRITE ∧
    PROT_WRITE &&& PROT_READ = 0 ∧
    prot_flags AccessMode.read_write ≠ (PROT_READ ||| PROT_WRITE) ∧
    prot_flags AccessMode.read_only = PROT_READ := by
  decide

/-- Claim C9 (confirmed): `unmap` on a region that is not open is a no-op;
on an open region it resets `data_` to null, the lengths to 0 and
`file_handle_` to the invalid sentinel, after which `is_open` is false and a
second `unmap` has no observable effect; and the result does not depend on
the return values of the underlying `::munmap`/`::close` calls. -/
theorem unmap_contract_C9 (munmapRet closeRet : Int) (st : MmapState) :
    (is_open st = false → unmap munmapRet closeRet st = (st, [])) ∧
    (is_open st = true →
      (unmap munmapRet closeRet st).1.data_ = none ∧
      (unmap munmapRet closeRet st).1.length_ = 0 ∧
      (unmap munmapRet closeRet st).1.mapped_length_ = 0 ∧
      (unmap munmapRet closeRet st).1.file_handle_ = INVALID_HANDLE_VALUE ∧
      is_open (unmap munmapRet closeRet st).1 = false ∧
      unmap munmapRet closeRet (unmap munmapRet closeRet st).1 =
        ((unmap munmapRet closeRet st).1, [])) ∧
    (∀ r1 r2 : Int, unmap munmapRet closeRet st = unmap r1 r2 st) := by
  refine ⟨fun h => by simp [unmap, h], fun h => ?_, fun _ _ => rfl⟩
  have hne : ¬ st.file_handle_ = (-1 : Int) := by
    simpa [is_open, INVALID_HANDLE_VALUE] using h
  simp [unmap, is_open, INVALID_HANDLE_VALUE, hne]

/-- Witness for C9 at a concrete open region. -/
theorem unmap_contract_C9_witness :
    (unmap 0 0 stOpenEx).1.data_ = none ∧
    (unmap 0 0 stOpenEx).1.length_ = 0 ∧
    (unmap 0 0 stOpenEx).1.mapped_length_ = 0 ∧
    (unmap 0 0 stOpenEx).1.file_handle_ = INVALID_HANDLE_VALUE ∧
    is_open (unmap 0 0 stOpenEx).1 = false ∧
    unmap 0 0 (unmap 0 0 stOpenEx).1 = ((unmap 0 0 stOpenEx).1, []) :=
  (unmap_contract_C9 0 0 stOpenEx).2.1 (by decide)

/-- Claim C10 (confirmed): calling the path-based `map` with a non-empty path
on a region that is already open leaves the region unchanged, reports no
error, and opens no handle, whatever the offset, length, mode and OS
behaviour. -/
theorem map_path_noop_when_open_C10 (env : MapEnv) (st : MmapState)
    (offset length : Int) (mode : AccessMode) (h : is_open st = true) :
    map_path env st false offset length mode = (st, ErrorCode.ok, []) := by
  simp [map_path, h]

/-- Witness for C10 at a concrete open region. -/
theorem map_path_noop_when_open_C10_witness :
    map_path envAllOk stOpenEx false 5 6 AccessMode.read_write =
      (stOpenEx, ErrorCode.ok, []) :=
  map_path_noop_when_open_C10 envAllOk stOpenEx 5 6 AccessMode.read_write
    (by decide)

/-- Counterexample for claim C1: on a region that was not open, a
handle-based `map` whose `::mmap` call fails reports the error but leaves the
supplied handle stored, so `is_open()` is true after the failed call — the
region's observable state is not the same as before. -/
theorem map_failure_state_C1_counterexample :
    is_open emptyState = false ∧
    (map_handle envMmapFail emptyState 3 0 10 AccessMode.read_only).2.isSet
      = true ∧
    is_open (map_handle envMmapFail emptyState 3 0 10 AccessMode.read_only).1
      = true := by
  decide

/-- On any failing handle-based `map` the fields `data_`, `length_`,
`mapped_length_` and `bytes` are untouched, and the state is either entirely
unchanged or has exactly the supplied handle stored with the ownership flag
lowered. -/
theorem map_handle_frame (env : MapEnv) (st : MmapState) (handle : Handle)
    (offset length : Int) (mode : AccessMode) :
    (map_handle env st handle offset length mode).2 = ErrorCode.ok ∨
    ((map_handle env st handle offset length mode).1.data_ = st.data_ ∧
      (map_handle env st handle offset length mode).1.length_ = st.length_ ∧
      (map_handle env st handle offset length mode).1.mapped_length_
        = st.mapped_length_ ∧
      (map_handle env st handle offset length mode).1.bytes = st.bytes ∧
      ((map_handle env st handle offset length mode).1 = st ∨
        ((map_handle env st handle offset length mode).1.file_handle_
            = handle ∧
          (map_handle env st handle offset length mode).1.is_handle_internal_
            = false))) := by
  simp only [map_handle]
  split
  · exact Or.inr ⟨rfl, rfl, rfl, rfl, Or.inl rfl⟩
  · split
    · exact Or.inr ⟨rfl, rfl, rfl, rfl, Or.inl rfl⟩
    · split
      · simp only [map_priv]
        split
        · exact Or.inr ⟨rfl, rfl, rfl, rfl, Or.inr ⟨rfl, rfl⟩⟩
        · exact Or.inl rfl
      · split
        · exact Or.inr ⟨rfl, rfl, rfl, rfl, Or.inl rfl⟩
        · simp only [map_priv]
          split
          · exact Or.inr ⟨rfl, rfl, rfl, rfl, Or.inr ⟨rfl, rfl⟩⟩
          · exact Or.inl rfl

/-- On any failing path-based `map` the fields `data_`, `length_`,
`mapped_length_` and `bytes` are untouched, and the state is either entirely
unchanged or has (at least) the ownership flag raised. -/
theorem map_path_frame (env : MapEnv) (st : MmapState) (pe : Bool)
    (offset length : Int) (mode : AccessMode) :
    (map_path env st pe offset length mode).2.1 = ErrorCode.ok ∨
    ((map_path env st pe offset length mode).1.data_ = st.data_ ∧
      (map_path env st pe offset length mode).1.length_ = st.length_ ∧
      (map_path env st pe offset length mode).1.mapped_length_
        = st.mapped_length_ ∧
      (map_path env st pe offset length mode).1.bytes = st.bytes ∧
      ((map_path env st pe offset length mode).1 = st ∨
        (map_path env st pe offset length mode).1.is_handle_internal_
          = true)) := by
  simp only [map_path]
  split
  · exact Or.inr ⟨rfl, rfl, rfl, rfl, Or.inl rfl⟩
  · split
    · exact Or.inl rfl
    · split
      · exact Or.inr ⟨rfl, rfl, rfl, rfl, Or.inl rfl⟩
      · rcases map_handle_frame env st (open_file env pe).1 offset length mode
          with h | h
        · exact Or.inl h
        · exact Or.inr ⟨h.1, h.2.1, h.2.2.1, h.2.2.2.1, Or.inr rfl⟩

/-- Claim C1 (corrected): every failing `map` reports the first failing step
and never touches `data_`, `length_` or `mapped_length_`; failures before the
handle is stored (invalid handle, size query, bounds check, empty path, open
failure) leave the region entirely unchanged, but when the OS mapping call
itself fails the handle-based overload has already stored the supplied handle
(with the ownership flag lowered), and the path-based overload additionally
raises the ownership flag even when it fails after opening. -/
theorem map_failure_state_C1 :
    (∀ (env : MapEnv) (st : MmapState) (handle : Handle)
        (offset length : Int) (mode : AccessMode),
      (map_handle env st handle offset length mode).2.isSet = true →
        (map_handle env st handle offset length mode).1.data_ = st.data_ ∧
        (map_handle env st handle offset length mode).1.length_ = st.length_ ∧
        (map_handle env st handle offset length mode).1.mapped_length_
          = st.mapped_length_ ∧
        ((map_handle env st handle offset length mode).1 = st ∨
          ((map_handle env st handle offset length mode).1.file_handle_
              = handle ∧
            (map_handle env st handle offset length mode).1.is_handle_internal_
              = false))) ∧
    (∀ (env : MapEnv) (st : MmapState) (pe : Bool) (offset length : Int)
        (mode : AccessMode),
      (map_path env st pe offset length mode).2.1.isSet = true →
        (map_path env st pe offset length mode).1.data_ = st.data_ ∧
        (map_path env st pe offset length mode).1.length_ = st.length_ ∧
        (map_path env st pe offset length mode).1.mapped_length_
          = st.mapped_length_ ∧
        ((map_path env st pe offset length mode).1 = st ∨
          (map_path env st pe offset length mode).1.is_handle_internal_
            = true)) := by
  constructor
  · intro env st handle offset length mode herr
    rcases map_handle_frame env st handle offset length mode with h | h
    · rw [h] at herr; simp [ErrorCode.isSet] at herr
    · exact ⟨h.1, h.2.1, h.2.2.1, h.2.2.2.2⟩
  · intro env st pe offset length mode herr
    rcases map_path_frame env st pe offset length mode with h | h
    · rw [h] at herr; simp [ErrorCode.isSet] at herr
    · exact ⟨h.1, h.2.1, h.2.2.1, h.2.2.2.2⟩

/-- Witness for C1 (amended) at a concrete failing call: size-query failure
leaves the region entirely unchanged. -/
theorem map_failure_state_C1_witness :
    (map_handle envOpenFail emptyState 3 0 200 AccessMode.read_only).1.data_
      = emptyState.data_ ∧
    (map_handle envOpenFail emptyState 3 0 200 AccessMode.read_only).1.length_
      = emptyState.length_ ∧
    (map_handle envOpenFail emptyState 3 0 200
        AccessMode.read_only).1.mapped_length_ = emptyState.mapped_length_ ∧
    ((map_handle envOpenFail emptyState 3 0 200 AccessMode.read_only).1
        = emptyState ∨
      ((map_handle envOpenFail emptyState 3 0 200
            AccessMode.read_only).1.file_handle_ = 3 ∧
        (map_handle envOpenFail emptyState 3 0 200
            AccessMode.read_only).1.is_handle_internal_ = false)) :=
  map_failure_state_C1.1 envOpenFail emptyState 3 0 200 AccessMode.read_only
    (by decide)

/-- Counterexample for claim C6: when `::open` fails (here with
`errno = 2`, ENOENT), the path-based `map` reports the translated platform
error, not a "bad descriptor" condition. -/
theorem map_path_open_failures_C6_counterexample :
    (map_path envOpenFail emptyState false 0 0 AccessMode.read_only).2.1
      = ErrorCode.system 2 ∧
    ErrorCode.system 2 ≠ ErrorCode.bad_file_descriptor := by
  decide

/-- Claim C6 (corrected): the path-based `map` fails with `invalid_argument`
on an empty path without any OS call (the result is the same for every OS
oracle and nothing is opened), and when `::open` fails it reports the
platform's last-error translation — not a "bad descriptor" condition — again
leaving the region unchanged with no mapping step attempted. -/
theorem map_path_open_failures_C6 :
    (∀ (env : MapEnv) (st : MmapState) (offset length : Int)
        (mode : AccessMode),
      map_path env st true offset length mode
        = (st, ErrorCode.invalid_argument, [])) ∧
    (∀ (env : MapEnv) (st : MmapState) (offset length : Int)
        (mode : AccessMode),
      is_open st = false → env.openRet = INVALID_HANDLE_VALUE →
      env.openErrno ≠ 0 →
      map_path env st false offset length mode
        = (st, ErrorCode.system env.openErrno, [])) := by
  constructor
  · intro env st offset length mode
    simp [map_path]
  · intro env st offset length mode hopen hret herrno
    simp [map_path, hopen, open_file, hret, ErrorCode.isSet, herrno]

/-- Witness for C6 (amended) at a concrete failing open. -/
theorem map_path_open_failures_C6_witness :
    map_path envOpenFail emptyState false 1 2 AccessMode.read_write
      = (emptyState, ErrorCode.system 2, []) :=
  map_path_open_failures_C6.2 envOpenFail emptyState 1 2 AccessMode.read_write
    (by decide) rfl (by decide)

/-- The error slot of `query_file_size` is never this library's own
`invalid_argument` condition. -/
theorem query_file_size_no_invalid (env : MapEnv) :
    (query_file_size env).2 ≠ ErrorCode.invalid_argument := by
  cases h : env.statRet <;> simp [query_file_size, h]

/-- With a non-positive requested length the handle-based `map` never raises
`invalid_argument`: the sentinel is accepted, not range-checked. -/
theorem map_handle_no_invalid_on_sentinel (env : MapEnv) (st : MmapState)
    (handle : Handle) (offset length : Int) (mode : AccessMode)
    (hl : length ≤ 0) :
    (map_handle env st handle offset length mode).2
      ≠ ErrorCode.invalid_argument := by
  by_cases hh : handle = INVALID_HANDLE_VALUE
  · simp [map_handle, hh]
  · simp only [map_handle, if_neg hh]
    split
    · exact query_file_size_no_invalid env
    · simp only [map_priv]
      split
      · simp
      · simp

/-- When `::fstat` reports size `sz` and the handle-based `map` succeeds, the
resolved length is `sz` for the non-positive sentinel and the requested
length otherwise, and a positive requested length passed the bounds check. -/
theorem map_handle_ok_size (env : MapEnv) (st : MmapState) (handle : Handle)
    (offset length sz : Int) (mode : AccessMode) (hs : env.statRet = .ok sz) :
    (map_handle env st handle offset length mode).2 = ErrorCode.ok →
      size (map_handle env st handle offset length mode).1
        = (if length ≤ 0 then sz else length) ∧
      (¬ length ≤ 0 → offset + length ≤ sz) := by
  have hq1 : (query_file_size env).1 = sz := by simp [query_file_size, hs]
  have hq2 : (query_file_size env).2 = ErrorCode.ok := by
    simp [query_file_size, hs]
  by_cases hh : handle = INVALID_HANDLE_VALUE
  · simp [map_handle, hh]
  · simp only [map_handle, if_neg hh, hq1, hq2, ErrorCode.isSet,
      Bool.false_eq_true, if_false]
    split
    · next hl =>
      simp only [map_priv]
      split
      · intro hok
        exact absurd hok (by simp)
      · intro _
        exact ⟨rfl, fun hpos => absurd hl hpos⟩
    · next hl =>
      split
      · next hb =>
        intro hok
        exact absurd hok (by simp)
      · next hb =>
        simp only [map_priv]
        split
        · intro hok
          exact absurd hok (by simp)
        · intro _
          exact ⟨rfl, fun _ => by omega⟩

/-- Claim C5 (confirmed): in the handle-based `map`, a non-positive length is
the accepted map-to-end sentinel — never an `invalid_argument` error — and on
success it resolves to the file's size, so `size() == file_size`; a positive
length with `offset + length > file_size` (and a valid handle, so that the
size query is reached) fails with `invalid_argument` and leaves the state
unchanged. -/
theorem map_handle_sentinel_C5 (env : MapEnv) (st : MmapState)
    (handle : Handle) (offset length sz : Int) (mode : AccessMode)
    (hs : env.statRet = .ok sz) :
    (length ≤ 0 →
      (map_handle env st handle offset length mode).2
        ≠ ErrorCode.invalid_argument ∧
      ((map_handle env st handle offset length mode).2 = ErrorCode.ok →
        size (map_handle env st handle offset length mode).1 = sz)) ∧
    (0 < length → offset + length > sz → ¬ handle = INVALID_HANDLE_VALUE →
      map_handle env st handle offset length mode
        = (st, ErrorCode.invalid_argument)) := by
  constructor
  · intro hl
    refine ⟨map_handle_no_invalid_on_sentinel env st handle offset length mode
      hl, fun hok => ?_⟩
    have h := map_handle_ok_size env st handle offset length sz mode hs hok
    rw [h.1, if_pos hl]
  · intro hpos hb hh
    have hq1 : (query_file_size env).1 = sz := by simp [query_file_size, hs]
    have hq2 : (query_file_size env).2 = ErrorCode.ok := by
      simp [query_file_size, hs]
    simp only [map_handle, if_neg hh, hq1, hq2, ErrorCode.isSet,
      Bool.false_eq_true, if_false]
    rw [if_neg (by omega), if_pos hb]

/-- Witness for C5 at a concrete sentinel mapping of a 100-byte file. -/
theorem map_handle_sentinel_C5_witness :
    size (map_handle envAllOk emptyState 3 0 0 AccessMode.read_only).1 = 100 ∧
    (map_handle envAllOk emptyState 3 0 0 AccessMode.read_only).2
      ≠ ErrorCode.invalid_argument := by
  have h := (map_handle_sentinel_C5 envAllOk emptyState 3 0 0 100
    AccessMode.read_only rfl).1 (by decide)
  exact ⟨h.2 (by decide), h.1⟩

/-- Counterexample for claim C3: mapping a 100-byte file with `offset = 50`
and the map-to-end sentinel `length = 0` succeeds, but the resolved size is
the whole file size 100, so `offset + size() = 150 > 100`: the mapping does
not lie within file bounds. -/
theorem map_bounds_amended_C3_counterexample :
    (map_handle envAllOk emptyState 3 50 0 AccessMode.read_only).2
      = ErrorCode.ok ∧
    size (map_handle envAllOk emptyState 3 50 0 AccessMode.read_only).1
      = 100 ∧
    ¬ (50 + size (map_handle envAllOk emptyState 3 50 0
        AccessMode.read_only).1 ≤ 100) := by
  decide

/-- Claim C3 (corrected): a successful map with a positive requested length
lies within file bounds (`offset + size() ≤ file_size`); but when the
requested length is the non-positive map-to-end sentinel, the code resolves
the length to the whole file size without subtracting the offset, so for a
positive offset the mapping extends past the end of the file. -/
theorem map_bounds_amended_C3 (env : MapEnv) (st : MmapState)
    (handle : Handle) (offset length sz : Int) (mode : AccessMode)
    (hs : env.statRet = .ok sz) :
    (map_handle env st handle offset length mode).2 = ErrorCode.ok →
      (0 < length →
        offset + size (map_handle env st handle offset length mode).1 ≤ sz) ∧
      (length ≤ 0 →
        size (map_handle env st handle offset length mode).1 = sz) := by
  intro hok
  have h := map_handle_ok_size env st handle offset length sz mode hs hok
  constructor
  · intro hpos
    have hnl : ¬ length ≤ 0 := by omega
    rw [h.1, if_neg hnl]
    exact h.2 hnl
  · intro hl
    rw [h.1, if_pos hl]

/-- Witness for C3 (amended) at a concrete in-bounds positive-length map. -/
theorem map_bounds_amended_C3_witness :
    50 + size (map_handle envAllOk emptyState 3 50 10
      AccessMode.read_only).1 ≤ 100 :=
  (map_bounds_amended_C3 envAllOk emptyState 3 50 10 100 AccessMode.read_only
    rfl (by decide)).1 (by decide)

/-- Claim C4 (confirmed): a successful mapping calls the OS primitive with
`aligned_offset = offset / page_size * page_size` (rounding down, so
`aligned_offset ≤ offset < aligned_offset + page_size`) and span
`length_to_map = (offset - aligned_offset) + length`, and afterwards
`data = mapping_start + (offset - aligned_offset)`, `length` is the resolved
length, `mapped_length = length_to_map`, hence
`mapped_length - length = offset - aligned_offset`. -/
theorem map_alignment_C4 (env : MapEnv) (st : MmapState)
    (offset length : Int) (mode : AccessMode) (addr : Nat)
    (hoff : 0 ≤ offset) (hpage : 0 < env.pageSize)
    (hm : env.mmapCall
        (offset - make_page_aligned env.pageSize offset + length)
        (prot_flags mode) (make_page_aligned env.pageSize offset)
      = .ok addr) :
    (map_priv env st offset length mode).2 = ErrorCode.ok ∧
    (map_priv env st offset length mode).1.data_
      = some ((addr : Int) + offset - make_page_aligned env.pageSize offset) ∧
    (map_priv env st offset length mode).1.length_ = length ∧
    (map_priv env st offset length mode).1.mapped_length_
      = offset - make_page_aligned env.pageSize offset + length ∧
    (map_priv env st offset length mode).1.mapped_length_
        - (map_priv env st offset length mode).1.length_
      = offset - make_page_aligned env.pageSize offset ∧
    make_page_aligned env.pageSize offset
      = offset / (env.pageSize : Int) * (env.pageSize : Int) ∧
    make_page_aligned env.pageSize offset ≤ offset ∧
    offset - make_page_aligned env.pageSize offset < (env.pageSize : Int) := by
  have hdef : make_page_aligned env.pageSize offset
      = ((offset.toNat / env.pageSize * env.pageSize : Nat) : Int) := rfl
  have ha : ((offset.toNat : Int)) = offset := Int.toNat_of_nonneg hoff
  have h1 : offset.toNat / env.pageSize * env.pageSize ≤ offset.toNat :=
    Nat.div_mul_le_self _ _
  have h2 : offset.toNat % env.pageSize < env.pageSize :=
    Nat.mod_lt _ hpage
  have h3 : offset.toNat / env.pageSize * env.pageSize
      + offset.toNat % env.pageSize = offset.toNat := by
    rw [Nat.mul_comm]
    exact Nat.div_add_mod _ _
  refine ⟨by simp [map_priv, hm], by simp [map_priv, hm],
    by simp [map_priv, hm], by simp [map_priv, hm], ?_, ?_, ?_, ?_⟩
  · simp only [map_priv, hm]
    simp
  · rw [hdef, ← ha]
    push_cast
    rfl
  · rw [hdef, ← ha]
    exact_mod_cast h1
  · have h5 : ((offset.toNat / env.pageSize * env.pageSize : Nat) : Int)
        + ((offset.toNat % env.pageSize : Nat) : Int)
        = ((offset.toNat : Nat) : Int) := by
      exact_mod_cast h3
    have h6 : ((offset.toNat % env.pageSize : Nat) : Int)
        < ((env.pageSize : Nat) : Int) := by
      exact_mod_cast h2
    rw [hdef]
    linarith [h5, h6, ha]

/-- Witness for C4 at a concrete unaligned mapping: offset 4106 on page size
4096, length 10. -/
theorem map_alignment_C4_witness :
    (map_priv envBigFile emptyState 4106 10 AccessMode.read_only).2
      = ErrorCode.ok ∧
    (map_priv envBigFile emptyState 4106 10
        AccessMode.read_only).1.mapped_length_
      - (map_priv envBigFile emptyState 4106 10
          AccessMode.read_only).1.length_
      = 4106 - make_page_aligned envBigFile.pageSize 4106 := by
  have h := map_alignment_C4 envBigFile emptyState 4106 10
    AccessMode.read_only 1048576 (by decide) (by decide) rfl
  exact ⟨h.1, h.2.2.2.2.1⟩

/-- Claim C8 (confirmed): `operator==` returns true iff both regions are
mapped with equal size and identical byte content or neither is mapped; a
mapped region never compares equal to an unmapped one; and `operator!=` is
the exact negation of `operator==`.  The hypotheses are the representation
invariant that a region's byte list covers exactly its `length_` bytes. -/
theorem mmap_equality_C8 (a b : MmapState)
    (ha : a.bytes.length = a.length_.toNat)
    (hb : b.bytes.length = b.length_.toNat) :
    (mmap_beq a b = true ↔
      ((is_mapped a = true ∧ is_mapped b = true ∧ size a = size b ∧
          a.bytes = b.bytes) ∨
        (is_mapped a = false ∧ is_mapped b = false))) ∧
    (¬ is_mapped a = is_mapped b → mmap_beq a b = false) ∧
    mmap_bne a b = !(mmap_beq a b) := by
  refine ⟨?_, ?_, rfl⟩
  · by_cases hma : is_mapped a = true <;> by_cases hmb : is_mapped b = true
    · unfold mmap_beq
      rw [if_pos (show (is_mapped a && is_mapped b) = true by
        rw [hma, hmb]; rfl)]
      rw [Bool.and_eq_true, decide_eq_true_eq, decide_eq_true_eq]
      constructor
      · rintro ⟨hsz, htk⟩
        have hsz' : a.length_ = b.length_ := hsz
        have hlen : a.bytes.length = b.bytes.length := by
          rw [ha, hb, hsz']
        rw [hlen, List.take_length] at htk
        exact Or.inl ⟨hma, hmb, hsz, htk⟩
      · rintro (⟨h1, h2, hsz, hby⟩ | ⟨h1, h2⟩)
        · have hsz' : a.length_ = b.length_ := hsz
          have hlen : a.bytes.length = b.bytes.length := by
            rw [ha, hb, hsz']
          rw [hlen, List.take_length]
          exact ⟨hsz, hby⟩
        · rw [hma] at h1
          exact absurd h1 (by simp)
    · simp [mmap_beq, hma, hmb]
    · simp [mmap_beq, hma, hmb]
    · simp [mmap_beq, hma, hmb]
  · intro hne
    by_cases hma : is_mapped a = true <;> by_cases hmb : is_mapped b = true
    · exact absurd (hma.trans hmb.symm) hne
    · simp [mmap_beq, hma, hmb]
    · simp [mmap_beq, hma, hmb]
    · simp_all

/-- Witness for C8: two regions with different handles and mapping addresses
but the same size and byte content compare equal. -/
theorem mmap_equality_C8_witness :
    mmap_beq stOpenEx stOpenEx2 = true :=
  (mmap_equality_C8 stOpenEx stOpenEx2 (by decide) (by decide)).1.mpr
    (Or.inl ⟨by decide, by decide, by decide, by decide⟩)

/-- A region that is not open carries no close obligation. -/
theorem owedOf_not_open (st : MmapState) (h : is_open st = false) :
    owedOf st = 0 := by
  simp [owedOf, h]

/-- The moved-from region carries no close obligation: its handle was reset
to the invalid sentinel by the move constructor. -/
theorem owedOf_moved_from (st : MmapState) :
    owedOf (moved_from_state st) = 0 := by
  simp [owedOf, moved_from_state, is_open, INVALID_HANDLE_VALUE]

/-- The empty region carries no close obligation. -/
theorem owedOf_empty : owedOf emptyState = 0 := by
  decide

/-- The handles `unmap` closes are exactly the close obligation of the
region, and the torn-down region carries no obligation. -/
theorem unmap_closed_eq_owedOf (st : MmapState) :
    Multiset.ofList (unmap 0 0 st).2 = owedOf st ∧
    owedOf (unmap 0 0 st).1 = 0 := by
  by_cases h : is_open st = true
  · have hne : ¬ st.file_handle_ = (-1 : Int) := by
      simpa [is_open, INVALID_HANDLE_VALUE] using h
    constructor
    · simp only [unmap, is_open, INVALID_HANDLE_VALUE]
      cases ho : st.is_handle_internal_ <;>
        simp [owedOf, is_open, INVALID_HANDLE_VALUE, hne, ho]
    · simp [unmap, is_open, INVALID_HANDLE_VALUE, hne, owedOf]
  · have h0 : is_open st = false := by
      cases hv : is_open st
      · rfl
      · exact absurd hv h
    simp [unmap, h0, owedOf]

/-- A handle-based `map` run on a region that is not open leaves a region
with no close obligation: either it failed early (still not open) or it
stored the caller's handle with the ownership flag lowered. -/
theorem map_handle_owedOf (env : MapEnv) (st : MmapState) (handle : Handle)
    (offset length : Int) (mode : AccessMode) (hopen : is_open st = false) :
    owedOf (map_handle env st handle offset length mode).1 = 0 := by
  by_cases hh : handle = INVALID_HANDLE_VALUE
  · simp [map_handle, hh, owedOf, hopen]
  · simp only [map_handle, if_neg hh]
    split
    · simp [owedOf, hopen]
    · split
      · simp only [map_priv]
        split
        · simp [owedOf]
        · simp [owedOf]
      · split
        · simp [owedOf, hopen]
        · simp only [map_priv]
          split
          · simp [owedOf]
          · simp [owedOf]

/-- The handle-based `map` either leaves the region untouched or stores
exactly the supplied handle. -/
theorem map_handle_result_handle (env : MapEnv) (st : MmapState)
    (handle : Handle) (offset length : Int) (mode : AccessMode) :
    (map_handle env st handle offset length mode).1 = st ∨
    (map_handle env st handle offset length mode).1.file_handle_ = handle := by
  by_cases hh : handle = INVALID_HANDLE_VALUE
  · simp [map_handle, hh]
  · simp only [map_handle, if_neg hh]
    split
    · exact Or.inl rfl
    · split
      · simp only [map_priv]
        split
        · exact Or.inr rfl
        · exact Or.inr rfl
      · split
        · exact Or.inl rfl
        · simp only [map_priv]
          split
          · exact Or.inr rfl
          · exact Or.inr rfl

/-- Close-obligation bookkeeping of the path-based `map` under the `hgood`
side condition: the obligation of the resulting region is the previous
obligation plus one obligation per internally opened handle. -/
theorem map_path_owedOf (env : MapEnv) (st : MmapState) (pe : Bool)
    (offset length : Int) (mode : AccessMode)
    (hgood : (map_path env st pe offset length mode).2.2 = [] ∨
      is_open (map_path env st pe offset length mode).1 = true) :
    owedOf (map_path env st pe offset length mode).1
      = owedOf st
        + Multiset.ofList (map_path env st pe offset length mode).2.2 := by
  cases pe with
  | true => simp [map_path]
  | false =>
    by_cases hopen : is_open st = true
    · simp [map_path, hopen]
    · have hopen' : is_open st = false := by
        cases hv : is_open st
        · rfl
        · exact absurd hv hopen
      have hfh : st.file_handle_ = (-1 : Int) := by
        simpa [is_open, INVALID_HANDLE_VALUE] using hopen'
      by_cases hr : env.openRet = INVALID_HANDLE_VALUE
      · simp only [map_path, Bool.false_eq_true, if_false, hopen',
          open_file, hr, if_true, ErrorCode.isSet] at hgood ⊢
        split
        · simp [owedOf, hopen']
        · simp [map_handle, INVALID_HANDLE_VALUE, owedOf, is_open, hfh]
      · have hr' : ¬ env.openRet = (-1 : Int) := hr
        simp only [map_path, Bool.false_eq_true, if_false, hopen',
          open_file, hr, ErrorCode.isSet] at hgood ⊢
        rcases map_handle_result_handle env st env.openRet offset length mode
          with hcase | hcase
        · exfalso
          rcases hgood with hgood | hgood
          · simp at hgood
          · rw [show is_open ({ (map_handle env st env.openRet offset length
                mode).1 with is_handle_internal_ := true } : MmapState)
                = is_open (map_handle env st env.openRet offset length
                  mode).1 from rfl, hcase, hopen'] at hgood
            exact absurd hgood (by simp)
        · simp [owedOf, is_open, hcase, hr', owedOf_not_open st hopen',
            INVALID_HANDLE_VALUE, hfh]

/-- Counterexample for claim C2: map a file by path (the library opens and
stores descriptor 3 and marks it owned), then call the handle-based `map`
with caller handle 7 on the same region — it succeeds and overwrites the
stored handle — then tear the region down.  The teardown closes nothing and
leaves the region not open (so all later unmaps are no-ops): the internally
opened handle 3 is closed zero times, not exactly once. -/
theorem handle_close_accounting_C2_counterexample :
    (map_path envAllOk emptyState false 0 0 AccessMode.read_only).2.2
      = [3] ∧
    (map_path envAllOk emptyState false 0 0
        AccessMode.read_only).1.file_handle_ = 3 ∧
    (map_path envAllOk emptyState false 0 0
        AccessMode.read_only).1.is_handle_internal_ = true ∧
    (map_handle envAllOk
        (map_path envAllOk emptyState false 0 0 AccessMode.read_only).1
        7 0 0 AccessMode.read_write).2 = ErrorCode.ok ∧
    (unmap 0 0 (map_handle envAllOk
        (map_path envAllOk emptyState false 0 0 AccessMode.read_only).1
        7 0 0 AccessMode.read_write).1).2 = [] ∧
    is_open (unmap 0 0 (map_handle envAllOk
        (map_path envAllOk emptyState false 0 0 AccessMode.read_only).1
        7 0 0 AccessMode.read_write).1).1 = false := by
  decide

/-- Claim C2 (corrected): along any trace in which a handle-based `map` is
only invoked on regions that are not open, and a path-based `map` that opens
a handle also ends with the region open, the multiset of internally opened
handles always equals the closed handles plus the obligations of the live
open-and-owning regions.  Hence when no region owes a close (for example
after all regions are destroyed), every internally opened handle has been
closed exactly once; and the closes never exceed the internal opens, so a
caller-supplied handle is never closed. -/
theorem handle_close_accounting_C2 (s s' : Sys)
    (hinv : s.opened = s.closed + owed s) (h : GoodTrace s s') :
    (s'.opened = s'.closed + owed s') ∧
    (owed s' = 0 → s'.opened = s'.closed) ∧
    s'.closed ≤ s'.opened := by
  have step : s.opened = s.closed + owed s →
      s'.opened = s'.closed + owed s' := by
    clear hinv
    induction h with
    | done s => exact fun hi => hi
    | newRegion R O C s2 hres ih =>
        intro hi
        apply ih
        simp only [owed, Multiset.map_cons, Multiset.sum_cons] at hi ⊢
        rw [owedOf_empty, zero_add]
        exact hi
    | mapPathStep env pe offset length mode st R O C s2 hgood hres ih =>
        intro hi
        apply ih
        simp only [owed, Multiset.map_cons, Multiset.sum_cons] at hi ⊢
        rw [map_path_owedOf env st pe offset length mode hgood, hi]
        abel
    | mapHandleStep env handle offset length mode st R O C s2 hopen hres ih =>
        intro hi
        apply ih
        simp only [owed, Multiset.map_cons, Multiset.sum_cons] at hi ⊢
        rw [map_handle_owedOf env st handle offset length mode hopen]
        rw [owedOf_not_open st hopen] at hi
        exact hi
    | unmapStep st R O C s2 hres ih =>
        intro hi
        apply ih
        simp only [owed, Multiset.map_cons, Multiset.sum_cons] at hi ⊢
        rw [(unmap_closed_eq_owedOf st).2, (unmap_closed_eq_owedOf st).1, hi]
        abel
    | moveStep st R O C s2 hres ih =>
        intro hi
        apply ih
        simp only [owed, Multiset.map_cons, Multiset.sum_cons] at hi ⊢
        rw [owedOf_moved_from, hi]
        abel
    | destroyStep st R O C s2 hres ih =>
        intro hi
        apply ih
        simp only [owed, Multiset.map_cons, Multiset.sum_cons] at hi ⊢
        rw [(unmap_closed_eq_owedOf st).1, hi]
        abel
  have main : s'.opened = s'.closed + owed s' := step hinv
  exact ⟨main, fun h0 => by rw [main, h0, add_zero],
    main ▸ Multiset.le_add_right _ _⟩

/-- Witness for C2 (amended): one region, mapped by path (internally opening
handle 3) and then destroyed — at the end the opened and closed multisets
are both `{3}`: the handle was closed exactly once. -/
theorem handle_close_accounting_C2_witness :
    (⟨0, {3}, {3}⟩ : Sys).opened = (⟨0, {3}, {3}⟩ : Sys).closed := by
  have htr : GoodTrace ⟨{emptyState}, 0, 0⟩ (⟨0, {3}, {3}⟩ : Sys) := by
    apply GoodTrace.mapPathStep envAllOk false 0 0 AccessMode.read_only
      emptyState 0 0 0
    · exact Or.inr (by decide)
    · apply GoodTrace.destroyStep
      exact GoodTrace.done (⟨0, {3}, {3}⟩ : Sys)
  exact (handle_close_accounting_C2 ⟨{emptyState}, 0, 0⟩ ⟨0, {3}, {3}⟩
    (by decide) htr).2.1 (by decide)

end Mio
